import Mathlib

/-!
Verification of the Bar trace configuration builder
(`src/plotly/src/traces/bar.rs`).

The serialized JSON text is modelled by its parsed document value (`Json`
below): every claim is stated at the level of the structured document, so a
document value is a faithful abstraction of the string `serde_json::to_string`
produces.  `f64` values are modelled as rationals: the code performs no
floating-point arithmetic on them, it only stores and re-emits them, so any
type with decidable equality is a faithful carrier.

Types imported from `crate::common` (`Dim`, `Marker`, the enumerations, ...)
are not part of the provided sources; they are modelled from the spec and from
the expectations pinned by the in-repo tests of `bar.rs`, and are marked
`Modelled from the spec:` below.  Everything about the `Bar` struct itself —
its fields, `serde` renames, `skip_serializing_none` sparse encoding, the
constructor, the setters and `Trace::to_json` — is translated directly from
`bar.rs`.
-/

namespace Plotly

/-- A JSON document value.  Object fields are an ordered list of
key/value pairs, mirroring the order in which `serde` emits struct fields. -/
inductive Json : Type where
  | null : Json
  | bool : Bool → Json
  | num : ℚ → Json
  | str : String → Json
  | arr : List Json → Json
  | obj : List (String × Json) → Json

/-- Modelled from the spec: `f64` attribute values (opacity, text angle).  The
code never computes with them — they are stored by a setter and re-emitted by
the serializer — so rationals are a faithful carrier. -/
abbrev F64 : Type := ℚ

/-- Modelled from the spec: the chart-type discriminant enumeration
(`crate::common::PlotType`).  Only the `bar` variant is used by this file;
other trace types exist in the library. -/
inductive PlotType : Type where
  | bar : PlotType
  | scatter : PlotType
  | pie : PlotType
deriving DecidableEq

/-- Modelled from the spec: the fixed string each `PlotType` variant
serializes to. -/
def PlotType.toJson : PlotType → Json
  | .bar => .str "bar"
  | .scatter => .str "scatter"
  | .pie => .str "pie"

/-- Modelled from the spec: trace visibility (`crate::common::Visible`);
`LegendOnly` serializes to the fixed string `"legendonly"`. -/
inductive Visible : Type where
  | visible : Visible
  | hidden : Visible
  | legendOnly : Visible
deriving DecidableEq

/-- Modelled from the spec: the fixed string each `Visible` variant
serializes to. -/
def Visible.toJson : Visible → Json
  | .visible => .bool true
  | .hidden => .bool false
  | .legendOnly => .str "legendonly"

/-- Modelled from the spec: bar orientation (`crate::common::Orientation`);
`Vertical` serializes to the single character string `"v"`. -/
inductive Orientation : Type where
  | vertical : Orientation
  | horizontal : Orientation
deriving DecidableEq

/-- Modelled from the spec: the fixed string each `Orientation` variant
serializes to. -/
def Orientation.toJson : Orientation → Json
  | .vertical => .str "v"
  | .horizontal => .str "h"

/-- Modelled from the spec: calendar systems (`crate::common::Calendar`);
variants serialize to their lower-case names. -/
inductive Calendar : Type where
  | gregorian : Calendar
  | nanakshahi : Calendar
  | ummalqura : Calendar
deriving DecidableEq

/-- Modelled from the spec: the fixed string each `Calendar` variant
serializes to. -/
def Calendar.toJson : Calendar → Json
  | .gregorian => .str "gregorian"
  | .nanakshahi => .str "nanakshahi"
  | .ummalqura => .str "ummalqura"

/-- Modelled from the spec: `crate::common::ConstrainText`; variants
serialize to their lower-case names. -/
inductive ConstrainText : Type where
  | inside : ConstrainText
  | outside : ConstrainText
  | both : ConstrainText
  | none : ConstrainText
deriving DecidableEq

/-- Modelled from the spec: the fixed string each `ConstrainText` variant
serializes to. -/
def ConstrainText.toJson : ConstrainText → Json
  | .inside => .str "inside"
  | .outside => .str "outside"
  | .both => .str "both"
  | .none => .str "none"

/-- Modelled from the spec: `crate::common::TextAnchor`; variants serialize
to their lower-case names. -/
inductive TextAnchor : Type where
  | start : TextAnchor
  | middle : TextAnchor
  | finish : TextAnchor
deriving DecidableEq

/-- Modelled from the spec: the fixed string each `TextAnchor` variant
serializes to (the source variant `End` is named `finish` here because `end`
is a Lean keyword; it serializes to "end"). -/
def TextAnchor.toJson : TextAnchor → Json
  | .start => .str "start"
  | .middle => .str "middle"
  | .finish => .str "end"

/-- Modelled from the spec: `crate::common::TextPosition`; variants serialize
to their lower-case names. -/
inductive TextPosition : Type where
  | inside : TextPosition
  | outside : TextPosition
  | auto : TextPosition
  | none : TextPosition
deriving DecidableEq

/-- Modelled from the spec: the fixed string each `TextPosition` variant
serializes to. -/
def TextPosition.toJson : TextPosition → Json
  | .inside => .str "inside"
  | .outside => .str "outside"
  | .auto => .str "auto"
  | .none => .str "none"

/-- Modelled from the spec: `crate::common::HoverInfo`; the `All` variant
serializes to `"all"`. -/
inductive HoverInfo : Type where
  | all : HoverInfo
  | skip : HoverInfo
  | none : HoverInfo
deriving DecidableEq

/-- Modelled from the spec: the fixed string each `HoverInfo` variant
serializes to. -/
def HoverInfo.toJson : HoverInfo → Json
  | .all => .str "all"
  | .skip => .str "skip"
  | .none => .str "none"

/-- Modelled from the spec: the "dimension" type `crate::common::Dim<T>`,
a tagged union of exactly two shapes — one shared scalar value, or a
per-data-point sequence. -/
inductive Dim (T : Type) : Type where
  | scalar : T → Dim T
  | vector : List T → Dim T

/-- Modelled from the spec: the dimension encoder branches solely on the tag
to decide whether to emit a bare value or an array. -/
def Dim.toJson {T : Type} (enc : T → Json) : Dim T → Json
  | .scalar v => enc v
  | .vector vs => .arr (vs.map enc)

/-- Modelled from the spec: a nested sub-configuration
(`crate::common::Marker`): its own sparse set of optional fields, serialized
recursively with the same omit-absent rule; `Marker::new()` has every field
absent.  Only the already-serialized present fields matter to the claims, so
the sub-configuration is carried as its list of present key/value pairs. -/
structure Marker : Type where
  fields : List (String × Json)

/-- Modelled from the spec: `Marker::new()` — a marker with no fields set. -/
def Marker.new : Marker := ⟨[]⟩

/-- Modelled from the spec: a marker serializes to the document of its
present fields; with no fields set this is the empty document `{}`. -/
def Marker.toJson (m : Marker) : Json := .obj m.fields

/-- Modelled from the spec: `crate::common::Font`, a nested sub-configuration;
same treatment as `Marker`. -/
structure Font : Type where
  fields : List (String × Json)

/-- Modelled from the spec: a font serializes to the document of its present
fields. -/
def Font.toJson (f : Font) : Json := .obj f.fields

/-- Modelled from the spec: `crate::common::Label`, a nested
sub-configuration; same treatment as `Marker`. -/
structure Label : Type where
  fields : List (String × Json)

/-- Modelled from the spec: a label serializes to the document of its present
fields. -/
def Label.toJson (l : Label) : Json := .obj l.fields

/-- Modelled from the spec: `crate::common::ErrorData`, the error-bar
sub-configuration; same treatment as `Marker`. -/
structure ErrorData : Type where
  fields : List (String × Json)

/-- Modelled from the spec: error-bar data serializes to the document of its
present fields. -/
def ErrorData.toJson (e : ErrorData) : Json := .obj e.fields

/-- The `Bar<X, Y>` trace configuration, translated field for field from the
struct in `bar.rs` (declaration order preserved; `r#type` is named `type`). -/
structure Bar (X Y : Type) : Type where
  type : PlotType
  x : Option (List X)
  y : Option (List Y)
  name : Option String
  visible : Option Visible
  show_legend : Option Bool
  legend_group : Option String
  opacity : Option F64
  ids : Option (List String)
  width : Option ℕ
  offset : Option (Dim ℕ)
  text : Option (Dim String)
  text_position : Option (Dim TextPosition)
  text_template : Option (Dim String)
  hover_text : Option (Dim String)
  hover_info : Option HoverInfo
  hover_template : Option (Dim String)
  x_axis : Option String
  y_axis : Option String
  orientation : Option Orientation
  alignment_group : Option String
  offset_group : Option String
  marker : Option Marker
  text_angle : Option F64
  text_font : Option Font
  error_x : Option ErrorData
  error_y : Option ErrorData
  clip_on_axis : Option Bool
  constrain_text : Option ConstrainText
  hover_label : Option Label
  inside_text_anchor : Option TextAnchor
  inside_text_font : Option Font
  outside_text_font : Option Font
  x_calendar : Option Calendar
  y_calendar : Option Calendar

/-- `Bar::default()`: the discriminant fixed to `PlotType::Bar`, every other
field absent (`bar.rs` lines 105–143). -/
def Bar.default (X Y : Type) : Bar X Y where
  type := .bar
  x := none
  y := none
  name := none
  visible := none
  show_legend := none
  legend_group := none
  opacity := none
  ids := none
  width := none
  offset := none
  text := none
  text_position := none
  text_template := none
  hover_text := none
  hover_info := none
  hover_template := none
  x_axis := none
  y_axis := none
  orientation := none
  alignment_group := none
  offset_group := none
  marker := none
  text_angle := none
  text_font := none
  error_x := none
  error_y := none
  clip_on_axis := none
  constrain_text := none
  hover_label := none
  inside_text_anchor := none
  inside_text_font := none
  outside_text_font := none
  x_calendar := none
  y_calendar := none

/-- `Bar::new(x, y)`: the default configuration with the two mandatory data
sequences populated (`bar.rs` lines 151–157). -/
def Bar.new {X Y : Type} (x : List X) (y : List Y) : Bar X Y :=
  { Bar.default X Y with x := some x, y := some y }

section Setters

variable {X Y : Type}

/-- `Bar::alignment_group` (`bar.rs` 159–162): store the value, return the
updated configuration.  Rust setter methods share their field's name; Lean
cannot, so every setter here carries the spec's `set_` prefix. -/
def Bar.set_alignment_group (b : Bar X Y) (v : String) : Bar X Y :=
  { b with alignment_group := some v }

/-- `Bar::clip_on_axis` (`bar.rs` 164–167). -/
def Bar.set_clip_on_axis (b : Bar X Y) (v : Bool) : Bar X Y :=
  { b with clip_on_axis := some v }

/-- `Bar::constrain_text` (`bar.rs` 169–172). -/
def Bar.set_constrain_text (b : Bar X Y) (v : ConstrainText) : Bar X Y :=
  { b with constrain_text := some v }

/-- `Bar::error_x` (`bar.rs` 174–177). -/
def Bar.set_error_x (b : Bar X Y) (v : ErrorData) : Bar X Y :=
  { b with error_x := some v }

/-- `Bar::error_y` (`bar.rs` 179–182). -/
def Bar.set_error_y (b : Bar X Y) (v : ErrorData) : Bar X Y :=
  { b with error_y := some v }

/-- `Bar::hover_info` (`bar.rs` 184–187). -/
def Bar.set_hover_info (b : Bar X Y) (v : HoverInfo) : Bar X Y :=
  { b with hover_info := some v }

/-- `Bar::hover_label` (`bar.rs` 189–192). -/
def Bar.set_hover_label (b : Bar X Y) (v : Label) : Bar X Y :=
  { b with hover_label := some v }

/-- `Bar::hover_template` (`bar.rs` 194–197): scalar setter of a dimension
attribute, wraps the value in `Dim::Scalar`. -/
def Bar.set_hover_template (b : Bar X Y) (v : String) : Bar X Y :=
  { b with hover_template := some (.scalar v) }

/-- `Bar::hover_template_array` (`bar.rs` 199–203): array setter of the same
dimension attribute, wraps the values in `Dim::Vector`. -/
def Bar.set_hover_template_array (b : Bar X Y) (v : List String) : Bar X Y :=
  { b with hover_template := some (.vector v) }

/-- `Bar::hover_text` (`bar.rs` 205–208). -/
def Bar.set_hover_text (b : Bar X Y) (v : String) : Bar X Y :=
  { b with hover_text := some (.scalar v) }

/-- `Bar::hover_text_array` (`bar.rs` 210–214). -/
def Bar.set_hover_text_array (b : Bar X Y) (v : List String) : Bar X Y :=
  { b with hover_text := some (.vector v) }

/-- `Bar::ids` (`bar.rs` 216–220). -/
def Bar.set_ids (b : Bar X Y) (v : List String) : Bar X Y :=
  { b with ids := some v }

/-- `Bar::inside_text_anchor` (`bar.rs` 222–225). -/
def Bar.set_inside_text_anchor (b : Bar X Y) (v : TextAnchor) : Bar X Y :=
  { b with inside_text_anchor := some v }

/-- `Bar::inside_text_font` (`bar.rs` 227–230). -/
def Bar.set_inside_text_font (b : Bar X Y) (v : Font) : Bar X Y :=
  { b with inside_text_font := some v }

/-- `Bar::legend_group` (`bar.rs` 232–235). -/
def Bar.set_legend_group (b : Bar X Y) (v : String) : Bar X Y :=
  { b with legend_group := some v }

/-- `Bar::marker` (`bar.rs` 237–240). -/
def Bar.set_marker (b : Bar X Y) (v : Marker) : Bar X Y :=
  { b with marker := some v }

/-- `Bar::name` (`bar.rs` 242–245). -/
def Bar.set_name (b : Bar X Y) (v : String) : Bar X Y :=
  { b with name := some v }

/-- `Bar::show_legend` (`bar.rs` 246–249). -/
def Bar.set_show_legend (b : Bar X Y) (v : Bool) : Bar X Y :=
  { b with show_legend := some v }

/-- `Bar::text` (`bar.rs` 251–254). -/
def Bar.set_text (b : Bar X Y) (v : String) : Bar X Y :=
  { b with text := some (.scalar v) }

/-- `Bar::text_array` (`bar.rs` 256–260). -/
def Bar.set_text_array (b : Bar X Y) (v : List String) : Bar X Y :=
  { b with text := some (.vector v) }

/-- `Bar::text_angle` (`bar.rs` 262–265). -/
def Bar.set_text_angle (b : Bar X Y) (v : F64) : Bar X Y :=
  { b with text_angle := some v }

/-- `Bar::text_position` (`bar.rs` 267–270). -/
def Bar.set_text_position (b : Bar X Y) (v : TextPosition) : Bar X Y :=
  { b with text_position := some (.scalar v) }

/-- `Bar::text_position_array` (`bar.rs` 272–275). -/
def Bar.set_text_position_array (b : Bar X Y) (v : List TextPosition) : Bar X Y :=
  { b with text_position := some (.vector v) }

/-- `Bar::text_template` (`bar.rs` 277–280). -/
def Bar.set_text_template (b : Bar X Y) (v : String) : Bar X Y :=
  { b with text_template := some (.scalar v) }

/-- `Bar::text_template_array` (`bar.rs` 282–286). -/
def Bar.set_text_template_array (b : Bar X Y) (v : List String) : Bar X Y :=
  { b with text_template := some (.vector v) }

/-- `Bar::offset` (`bar.rs` 288–291). -/
def Bar.set_offset (b : Bar X Y) (v : ℕ) : Bar X Y :=
  { b with offset := some (.scalar v) }

/-- `Bar::offset_array` (`bar.rs` 293–296). -/
def Bar.set_offset_array (b : Bar X Y) (v : List ℕ) : Bar X Y :=
  { b with offset := some (.vector v) }

/-- `Bar::offset_group` (`bar.rs` 298–301). -/
def Bar.set_offset_group (b : Bar X Y) (v : String) : Bar X Y :=
  { b with offset_group := some v }

/-- `Bar::opacity` (`bar.rs` 303–306): accepts any `f64`, no range check. -/
def Bar.set_opacity (b : Bar X Y) (v : F64) : Bar X Y :=
  { b with opacity := some v }

/-- `Bar::orientation` (`bar.rs` 308–311). -/
def Bar.set_orientation (b : Bar X Y) (v : Orientation) : Bar X Y :=
  { b with orientation := some v }

/-- `Bar::outside_text_font` (`bar.rs` 313–316). -/
def Bar.set_outside_text_font (b : Bar X Y) (v : Font) : Bar X Y :=
  { b with outside_text_font := some v }

/-- `Bar::text_font` (`bar.rs` 318–321). -/
def Bar.set_text_font (b : Bar X Y) (v : Font) : Bar X Y :=
  { b with text_font := some v }

/-- `Bar::visible` (`bar.rs` 323–326). -/
def Bar.set_visible (b : Bar X Y) (v : Visible) : Bar X Y :=
  { b with visible := some v }

/-- `Bar::width` (`bar.rs` 328–331). -/
def Bar.set_width (b : Bar X Y) (v : ℕ) : Bar X Y :=
  { b with width := some v }

/-- `Bar::x_axis` (`bar.rs` 333–336). -/
def Bar.set_x_axis (b : Bar X Y) (v : String) : Bar X Y :=
  { b with x_axis := some v }

/-- `Bar::x_calendar` (`bar.rs` 338–341). -/
def Bar.set_x_calendar (b : Bar X Y) (v : Calendar) : Bar X Y :=
  { b with x_calendar := some v }

/-- `Bar::y_axis` (`bar.rs` 342–345). -/
def Bar.set_y_axis (b : Bar X Y) (v : String) : Bar X Y :=
  { b with y_axis := some v }

/-- `Bar::y_calendar` (`bar.rs` 347–350). -/
def Bar.set_y_calendar (b : Bar X Y) (v : Calendar) : Bar X Y :=
  { b with y_calendar := some v }

end Setters

/-- One optional field's contribution to the serialized object: with
`#[serde_with::skip_serializing_none]` an absent field contributes no
key/value pair at all, a present one contributes exactly one pair under its
(possibly renamed) wire key. -/
def optField {α : Type} (key : String) (v : Option α) (enc : α → Json) :
    List (String × Json) :=
  match v with
  | none => []
  | some a => [(key, enc a)]

/-- Encoder for `Int` data values (the instantiation used by the claims). -/
def encInt (n : ℤ) : Json := .num n

/-- Serialization of a `Bar` configuration as derived by
`#[derive(Serialize)]` with `#[serde_with::skip_serializing_none]`
(`bar.rs` 35–98): one JSON object, fields emitted in declaration order under
their `#[serde(rename = ...)]` wire keys, absent fields omitted entirely.
`encX`/`encY` encode the generic data values. -/
def Bar.toJsonDoc {X Y : Type} (b : Bar X Y) (encX : X → Json)
    (encY : Y → Json) : Json :=
  .obj ([("type", b.type.toJson)]
    ++ optField "x" b.x (fun v => .arr (v.map encX))
    ++ optField "y" b.y (fun v => .arr (v.map encY))
    ++ optField "name" b.name .str
    ++ optField "visible" b.visible Visible.toJson
    ++ optField "showlegend" b.show_legend .bool
    ++ optField "legendgroup" b.legend_group .str
    ++ optField "opacity" b.opacity .num
    ++ optField "ids" b.ids (fun v => .arr (v.map .str))
    ++ optField "width" b.width (fun n => .num n)
    ++ optField "offset" b.offset (Dim.toJson fun n => .num n)
    ++ optField "text" b.text (Dim.toJson .str)
    ++ optField "textposition" b.text_position (Dim.toJson TextPosition.toJson)
    ++ optField "texttemplate" b.text_template (Dim.toJson .str)
    ++ optField "hovertext" b.hover_text (Dim.toJson .str)
    ++ optField "hoverinfo" b.hover_info HoverInfo.toJson
    ++ optField "hovertemplate" b.hover_template (Dim.toJson .str)
    ++ optField "xaxis" b.x_axis .str
    ++ optField "yaxis" b.y_axis .str
    ++ optField "orientation" b.orientation Orientation.toJson
    ++ optField "alignmentgroup" b.alignment_group .str
    ++ optField "offsetgroup" b.offset_group .str
    ++ optField "marker" b.marker Marker.toJson
    ++ optField "textangle" b.text_angle .num
    ++ optField "textfont" b.text_font Font.toJson
    ++ optField "error_x" b.error_x ErrorData.toJson
    ++ optField "error_y" b.error_y ErrorData.toJson
    ++ optField "cliponaxis" b.clip_on_axis .bool
    ++ optField "constraintext" b.constrain_text ConstrainText.toJson
    ++ optField "hoverlabel" b.hover_label Label.toJson
    ++ optField "insidetextanchor" b.inside_text_anchor TextAnchor.toJson
    ++ optField "insidetextfont" b.inside_text_font Font.toJson
    ++ optField "outsidetextfont" b.outside_text_font Font.toJson
    ++ optField "xcalendar" b.x_calendar Calendar.toJson
    ++ optField "ycalendar" b.y_calendar Calendar.toJson)

/-- `Trace::to_json` for `Bar` (`bar.rs` 358–360): serialize the
configuration.  The serialized text is modelled by its document value; the
Rust `unwrap` has no counterpart because no branch of the encoding of this
data model can fail. -/
def Bar.to_json {X Y : Type} (b : Bar X Y) (encX : X → Json)
    (encY : Y → Json) : Json :=
  b.toJsonDoc encX encY

/-- The list of keys of a serialized document. -/
def Json.keys : Json → List String
  | .obj fs => fs.map Prod.fst
  | _ => []

/-- First-match association lookup among a document's key/value pairs. -/
def lookupKey : List (String × Json) → String → Option Json
  | [], _ => none
  | (k', v) :: rest, k => if k = k' then some v else lookupKey rest k

/-- Key lookup in a serialized document (first match). -/
def Json.get : Json → String → Option Json
  | .obj fs, k => lookupKey fs k
  | _, _ => none

/-- The 34 optional attributes of the `Bar` struct, in declaration order
(`bar.rs` 43–97). -/
inductive BarAttr : Type where
  | x | y | name | visible | show_legend | legend_group | opacity | ids
  | width | offset | text | text_position | text_template | hover_text
  | hover_info | hover_template | x_axis | y_axis | orientation
  | alignment_group | offset_group | marker | text_angle | text_font
  | error_x | error_y | clip_on_axis | constrain_text | hover_label
  | inside_text_anchor | inside_text_font | outside_text_font
  | x_calendar | y_calendar
deriving DecidableEq

/-- The wire key of each optional attribute: the field name, renamed per the
`#[serde(rename = ...)]` annotations of `bar.rs`. -/
def BarAttr.key : BarAttr → String
  | .x => "x"
  | .y => "y"
  | .name => "name"
  | .visible => "visible"
  | .show_legend => "showlegend"
  | .legend_group => "legendgroup"
  | .opacity => "opacity"
  | .ids => "ids"
  | .width => "width"
  | .offset => "offset"
  | .text => "text"
  | .text_position => "textposition"
  | .text_template => "texttemplate"
  | .hover_text => "hovertext"
  | .hover_info => "hoverinfo"
  | .hover_template => "hovertemplate"
  | .x_axis => "xaxis"
  | .y_axis => "yaxis"
  | .orientation => "orientation"
  | .alignment_group => "alignmentgroup"
  | .offset_group => "offsetgroup"
  | .marker => "marker"
  | .text_angle => "textangle"
  | .text_font => "textfont"
  | .error_x => "error_x"
  | .error_y => "error_y"
  | .clip_on_axis => "cliponaxis"
  | .constrain_text => "constraintext"
  | .hover_label => "hoverlabel"
  | .inside_text_anchor => "insidetextanchor"
  | .inside_text_font => "insidetextfont"
  | .outside_text_font => "outsidetextfont"
  | .x_calendar => "xcalendar"
  | .y_calendar => "ycalendar"

/-- Whether an optional attribute is present (set) in a configuration. -/
def BarAttr.isSet {X Y : Type} (a : BarAttr) (b : Bar X Y) : Bool :=
  match a with
  | .x => b.x.isSome
  | .y => b.y.isSome
  | .name => b.name.isSome
  | .visible => b.visible.isSome
  | .show_legend => b.show_legend.isSome
  | .legend_group => b.legend_group.isSome
  | .opacity => b.opacity.isSome
  | .ids => b.ids.isSome
  | .width => b.width.isSome
  | .offset => b.offset.isSome
  | .text => b.text.isSome
  | .text_position => b.text_position.isSome
  | .text_template => b.text_template.isSome
  | .hover_text => b.hover_text.isSome
  | .hover_info => b.hover_info.isSome
  | .hover_template => b.hover_template.isSome
  | .x_axis => b.x_axis.isSome
  | .y_axis => b.y_axis.isSome
  | .orientation => b.orientation.isSome
  | .alignment_group => b.alignment_group.isSome
  | .offset_group => b.offset_group.isSome
  | .marker => b.marker.isSome
  | .text_angle => b.text_angle.isSome
  | .text_font => b.text_font.isSome
  | .error_x => b.error_x.isSome
  | .error_y => b.error_y.isSome
  | .clip_on_axis => b.clip_on_axis.isSome
  | .constrain_text => b.constrain_text.isSome
  | .hover_label => b.hover_label.isSome
  | .inside_text_anchor => b.inside_text_anchor.isSome
  | .inside_text_font => b.inside_text_font.isSome
  | .outside_text_font => b.outside_text_font.isSome
  | .x_calendar => b.x_calendar.isSome
  | .y_calendar => b.y_calendar.isSome

/-- The wire keys in struct declaration order: the discriminant first, then
the optional attributes in the order their fields are declared. -/
def declaredKeyOrder : List String :=
  "type" :: BarAttr.x.key :: BarAttr.y.key :: BarAttr.name.key ::
  BarAttr.visible.key :: BarAttr.show_legend.key :: BarAttr.legend_group.key ::
  BarAttr.opacity.key :: BarAttr.ids.key :: BarAttr.width.key ::
  BarAttr.offset.key :: BarAttr.text.key :: BarAttr.text_position.key ::
  BarAttr.text_template.key :: BarAttr.hover_text.key ::
  BarAttr.hover_info.key :: BarAttr.hover_template.key ::
  BarAttr.x_axis.key :: BarAttr.y_axis.key :: BarAttr.orientation.key ::
  BarAttr.alignment_group.key :: BarAttr.offset_group.key ::
  BarAttr.marker.key :: BarAttr.text_angle.key :: BarAttr.text_font.key ::
  BarAttr.error_x.key :: BarAttr.error_y.key :: BarAttr.clip_on_axis.key ::
  BarAttr.constrain_text.key :: BarAttr.hover_label.key ::
  BarAttr.inside_text_anchor.key :: BarAttr.inside_text_font.key ::
  BarAttr.outside_text_font.key :: BarAttr.x_calendar.key ::
  BarAttr.y_calendar.key :: []

section Lemmas

variable {X Y : Type}

theorem mem_keys_optField {α : Type} {k key : String} {v : Option α}
    {enc : α → Json} :
    k ∈ (optField key v enc).map Prod.fst ↔ k = key ∧ ∃ a, v = some a := by
  cases v <;> simp [optField]

theorem keys_optField_sublist {α : Type} (key : String) (v : Option α)
    (enc : α → Json) :
    List.Sublist ((optField key v enc).map Prod.fst) [key] := by
  cases v <;> simp [optField]

theorem lookupKey_optField_skip {α : Type} {key k : String} {v : Option α}
    {enc : α → Json} {l : List (String × Json)} (h : ¬ k = key) :
    lookupKey (optField key v enc ++ l) k = lookupKey l k := by
  cases v <;> simp [optField, lookupKey, h]

theorem lookupKey_optField_hit {α : Type} {key : String} {a : α}
    {enc : α → Json} {l : List (String × Json)} :
    lookupKey (optField key (some a) enc ++ l) key = some (enc a) := by
  simp [optField, lookupKey]

theorem lookupKey_cons_skip {k k' : String} {j : Json}
    {l : List (String × Json)} (h : ¬ k = k') :
    lookupKey ((k', j) :: l) k = lookupKey l k := by
  simp [lookupKey, h]

theorem lookupKey_cons_hit {k : String} {j : Json}
    {l : List (String × Json)} :
    lookupKey ((k, j) :: l) k = some j := by
  simp [lookupKey]

theorem get_obj {fs : List (String × Json)} {k : String} :
    Json.get (.obj fs) k = lookupKey fs k := rfl

set_option maxHeartbeats 1600000 in
/-- The key set of the serialized document is exactly `"type"` plus the keys
of the present attributes: an attribute's wire key appears in the document iff
the attribute is set. -/
theorem mem_keys_toJsonDoc (b : Bar X Y) (encX : X → Json) (encY : Y → Json)
    (a : BarAttr) :
    a.key ∈ (b.toJsonDoc encX encY).keys ↔ a.isSet b := by
  cases a <;>
    simp only [Bar.toJsonDoc, Json.keys, BarAttr.key, BarAttr.isSet,
      List.map_append, List.map_cons, List.map_nil, List.cons_append,
      List.nil_append, List.mem_append, List.mem_cons, List.not_mem_nil,
      mem_keys_optField, Option.isSome_iff_exists, String.reduceEq,
      false_and, and_true, true_and, or_false, false_or, and_false,
      eq_self_iff_true, or_self, iff_self]

end Lemmas

/-- Claim C1: for every `Bar` configuration and every optional attribute, if
the attribute is absent then the serialized document contains no key for that
attribute at all — no null value is emitted for it; only the keys of present
attributes and the discriminant appear. -/
theorem bar_absent_attribute_omitted (X Y : Type) (encX : X → Json)
    (encY : Y → Json) (b : Bar X Y) (a : BarAttr) (h : a.isSet b = false) :
    a.key ∉ (b.toJsonDoc encX encY).keys := by
  intro hmem
  have hset := (mem_keys_toJsonDoc b encX encY a).mp hmem
  rw [h] at hset
  exact Bool.false_ne_true hset

/-- Witness for C1: the `name` attribute of `Bar::new([1], [2])` is absent,
and the serialized document has no `"name"` key. -/
theorem bar_absent_attribute_omitted_witness :
    BarAttr.name.isSet (Bar.new [(1 : ℤ)] [(2 : ℤ)]) = false ∧
    BarAttr.name.key ∉ ((Bar.new [(1 : ℤ)] [(2 : ℤ)]).toJsonDoc encInt encInt).keys :=
  ⟨rfl, bar_absent_attribute_omitted ℤ ℤ encInt encInt _ _ rfl⟩

/-- Claim C2: `Bar::new(vec![1,2], vec![3,4])` with visibility `LegendOnly`,
`show_legend` false and an empty `Marker` serializes to exactly
`{"type": "bar", "x": [1,2], "y": [3,4], "visible": "legendonly",
"showlegend": false, "marker": {}}` — the empty nested marker serializes to an
empty document at its key, not to an absent key. -/
theorem bar_end_to_end_scenario :
    ((((Bar.new [(1 : ℤ), 2] [(3 : ℤ), 4]).set_visible .legendOnly).set_show_legend
        false).set_marker Marker.new).toJsonDoc encInt encInt
      = Json.obj [("type", .str "bar"), ("x", .arr [.num 1, .num 2]),
          ("y", .arr [.num 3, .num 4]), ("visible", .str "legendonly"),
          ("showlegend", .bool false), ("marker", .obj [])] := by
  simp [Bar.toJsonDoc, Bar.new, Bar.default, Bar.set_visible, Bar.set_show_legend,
    Bar.set_marker, Marker.new, Marker.toJson, optField, PlotType.toJson,
    Visible.toJson, encInt]

/-- Claim C3: every setter is total for any value of its attribute's declared
type (no validation — opacity accepts any `f64`) and returns the receiver with
exactly the named attribute now holding the set value and every other field
unchanged. -/
theorem bar_setters_update_only_their_attribute (X Y : Type) (b : Bar X Y) :
    (∀ v, b.set_alignment_group v = { b with alignment_group := some v }) ∧
    (∀ v, b.set_clip_on_axis v = { b with clip_on_axis := some v }) ∧
    (∀ v, b.set_constrain_text v = { b with constrain_text := some v }) ∧
    (∀ v, b.set_error_x v = { b with error_x := some v }) ∧
    (∀ v, b.set_error_y v = { b with error_y := some v }) ∧
    (∀ v, b.set_hover_info v = { b with hover_info := some v }) ∧
    (∀ v, b.set_hover_label v = { b with hover_label := some v }) ∧
    (∀ v, b.set_hover_template v = { b with hover_template := some (.scalar v) }) ∧
    (∀ v, b.set_hover_template_array v = { b with hover_template := some (.vector v) }) ∧
    (∀ v, b.set_hover_text v = { b with hover_text := some (.scalar v) }) ∧
    (∀ v, b.set_hover_text_array v = { b with hover_text := some (.vector v) }) ∧
    (∀ v, b.set_ids v = { b with ids := some v }) ∧
    (∀ v, b.set_inside_text_anchor v = { b with inside_text_anchor := some v }) ∧
    (∀ v, b.set_inside_text_font v = { b with inside_text_font := some v }) ∧
    (∀ v, b.set_legend_group v = { b with legend_group := some v }) ∧
    (∀ v, b.set_marker v = { b with marker := some v }) ∧
    (∀ v, b.set_name v = { b with name := some v }) ∧
    (∀ v, b.set_show_legend v = { b with show_legend := some v }) ∧
    (∀ v, b.set_text v = { b with text := some (.scalar v) }) ∧
    (∀ v, b.set_text_array v = { b with text := some (.vector v) }) ∧
    (∀ v, b.set_text_angle v = { b with text_angle := some v }) ∧
    (∀ v, b.set_text_position v = { b with text_position := some (.scalar v) }) ∧
    (∀ v, b.set_text_position_array v = { b with text_position := some (.vector v) }) ∧
    (∀ v, b.set_text_template v = { b with text_template := some (.scalar v) }) ∧
    (∀ v, b.set_text_template_array v = { b with text_template := some (.vector v) }) ∧
    (∀ v, b.set_offset v = { b with offset := some (.scalar v) }) ∧
    (∀ v, b.set_offset_array v = { b with offset := some (.vector v) }) ∧
    (∀ v, b.set_offset_group v = { b with offset_group := some v }) ∧
    (∀ v : F64, b.set_opacity v = { b with opacity := some v }) ∧
    (∀ v, b.set_orientation v = { b with orientation := some v }) ∧
    (∀ v, b.set_outside_text_font v = { b with outside_text_font := some v }) ∧
    (∀ v, b.set_text_font v = { b with text_font := some v }) ∧
    (∀ v, b.set_visible v = { b with visible := some v }) ∧
    (∀ v, b.set_width v = { b with width := some v }) ∧
    (∀ v, b.set_x_axis v = { b with x_axis := some v }) ∧
    (∀ v, b.set_x_calendar v = { b with x_calendar := some v }) ∧
    (∀ v, b.set_y_axis v = { b with y_axis := some v }) ∧
    (∀ v, b.set_y_calendar v = { b with y_calendar := some v }) :=
  ⟨fun _ => rfl, fun _ => rfl, fun _ => rfl, fun _ => rfl, fun _ => rfl,
   fun _ => rfl, fun _ => rfl, fun _ => rfl, fun _ => rfl, fun _ => rfl,
   fun _ => rfl, fun _ => rfl, fun _ => rfl, fun _ => rfl, fun _ => rfl,
   fun _ => rfl, fun _ => rfl, fun _ => rfl, fun _ => rfl, fun _ => rfl,
   fun _ => rfl, fun _ => rfl, fun _ => rfl, fun _ => rfl, fun _ => rfl,
   fun _ => rfl, fun _ => rfl, fun _ => rfl, fun _ => rfl, fun _ => rfl,
   fun _ => rfl, fun _ => rfl, fun _ => rfl, fun _ => rfl, fun _ => rfl,
   fun _ => rfl, fun _ => rfl, fun _ => rfl⟩

/-- Claim C4: for every dimension-typed attribute (`offset`, `text`,
`text_position`, `text_template`, `hover_text`, `hover_template`), setting it
via the scalar setter then serializing yields a bare value at its key; via the
array setter, an array; both setters write the same attribute slot, so after
calling both in sequence the later call's shape and value win. -/
theorem bar_dimension_duality (X Y : Type) (encX : X → Json) (encY : Y → Json)
    (b : Bar X Y) (n : ℕ) (ln : List ℕ) (s : String) (ls : List String)
    (p : TextPosition) (lp : List TextPosition) :
    (Json.get ((b.set_offset n).toJsonDoc encX encY) "offset" = some (.num n)
      ∧ Json.get ((b.set_offset_array ln).toJsonDoc encX encY) "offset"
          = some (.arr (ln.map fun m : ℕ => .num m))
      ∧ (b.set_offset n).set_offset_array ln = b.set_offset_array ln
      ∧ (b.set_offset_array ln).set_offset n = b.set_offset n) ∧
    (Json.get ((b.set_text s).toJsonDoc encX encY) "text" = some (.str s)
      ∧ Json.get ((b.set_text_array ls).toJsonDoc encX encY) "text"
          = some (.arr (ls.map .str))
      ∧ (b.set_text s).set_text_array ls = b.set_text_array ls
      ∧ (b.set_text_array ls).set_text s = b.set_text s) ∧
    (Json.get ((b.set_text_position p).toJsonDoc encX encY) "textposition"
          = some p.toJson
      ∧ Json.get ((b.set_text_position_array lp).toJsonDoc encX encY) "textposition"
          = some (.arr (lp.map TextPosition.toJson))
      ∧ (b.set_text_position p).set_text_position_array lp = b.set_text_position_array lp
      ∧ (b.set_text_position_array lp).set_text_position p = b.set_text_position p) ∧
    (Json.get ((b.set_text_template s).toJsonDoc encX encY) "texttemplate" = some (.str s)
      ∧ Json.get ((b.set_text_template_array ls).toJsonDoc encX encY) "texttemplate"
          = some (.arr (ls.map .str))
      ∧ (b.set_text_template s).set_text_template_array ls = b.set_text_template_array ls
      ∧ (b.set_text_template_array ls).set_text_template s = b.set_text_template s) ∧
    (Json.get ((b.set_hover_text s).toJsonDoc encX encY) "hovertext" = some (.str s)
      ∧ Json.get ((b.set_hover_text_array ls).toJsonDoc encX encY) "hovertext"
          = some (.arr (ls.map .str))
      ∧ (b.set_hover_text s).set_hover_text_array ls = b.set_hover_text_array ls
      ∧ (b.set_hover_text_array ls).set_hover_text s = b.set_hover_text s) ∧
    (Json.get ((b.set_hover_template s).toJsonDoc encX encY) "hovertemplate" = some (.str s)
      ∧ Json.get ((b.set_hover_template_array ls).toJsonDoc encX encY) "hovertemplate"
          = some (.arr (ls.map .str))
      ∧ (b.set_hover_template s).set_hover_template_array ls = b.set_hover_template_array ls
      ∧ (b.set_hover_template_array ls).set_hover_template s = b.set_hover_template s) := by
  refine ⟨⟨?_, ?_, rfl, rfl⟩, ⟨?_, ?_, rfl, rfl⟩, ⟨?_, ?_, rfl, rfl⟩,
    ⟨?_, ?_, rfl, rfl⟩, ⟨?_, ?_, rfl, rfl⟩, ⟨?_, ?_, rfl, rfl⟩⟩ <;>
  simp only [Bar.toJsonDoc, Bar.set_offset, Bar.set_offset_array, Bar.set_text,
    Bar.set_text_array, Bar.set_text_position, Bar.set_text_position_array,
    Bar.set_text_template, Bar.set_text_template_array, Bar.set_hover_text,
    Bar.set_hover_text_array, Bar.set_hover_template, Bar.set_hover_template_array,
    get_obj, List.cons_append, List.nil_append, List.append_assoc,
    lookupKey_cons_skip, lookupKey_optField_skip, lookupKey_optField_hit,
    Dim.toJson, String.reduceEq, not_false_eq_true]

/-- One application of a public setter of `Bar` (`bar.rs` 159–350): the step
relation of the fluent builder API. -/
inductive SetterStep {X Y : Type} : Bar X Y → Bar X Y → Prop where
  | alignment_group (b v) : SetterStep b (Bar.set_alignment_group b v)
  | clip_on_axis (b v) : SetterStep b (Bar.set_clip_on_axis b v)
  | constrain_text (b v) : SetterStep b (Bar.set_constrain_text b v)
  | error_x (b v) : SetterStep b (Bar.set_error_x b v)
  | error_y (b v) : SetterStep b (Bar.set_error_y b v)
  | hover_info (b v) : SetterStep b (Bar.set_hover_info b v)
  | hover_label (b v) : SetterStep b (Bar.set_hover_label b v)
  | hover_template (b v) : SetterStep b (Bar.set_hover_template b v)
  | hover_template_array (b v) : SetterStep b (Bar.set_hover_template_array b v)
  | hover_text (b v) : SetterStep b (Bar.set_hover_text b v)
  | hover_text_array (b v) : SetterStep b (Bar.set_hover_text_array b v)
  | ids (b v) : SetterStep b (Bar.set_ids b v)
  | inside_text_anchor (b v) : SetterStep b (Bar.set_inside_text_anchor b v)
  | inside_text_font (b v) : SetterStep b (Bar.set_inside_text_font b v)
  | legend_group (b v) : SetterStep b (Bar.set_legend_group b v)
  | marker (b v) : SetterStep b (Bar.set_marker b v)
  | name (b v) : SetterStep b (Bar.set_name b v)
  | show_legend (b v) : SetterStep b (Bar.set_show_legend b v)
  | text (b v) : SetterStep b (Bar.set_text b v)
  | text_array (b v) : SetterStep b (Bar.set_text_array b v)
  | text_angle (b v) : SetterStep b (Bar.set_text_angle b v)
  | text_position (b v) : SetterStep b (Bar.set_text_position b v)
  | text_position_array (b v) : SetterStep b (Bar.set_text_position_array b v)
  | text_template (b v) : SetterStep b (Bar.set_text_template b v)
  | text_template_array (b v) : SetterStep b (Bar.set_text_template_array b v)
  | offset (b v) : SetterStep b (Bar.set_offset b v)
  | offset_array (b v) : SetterStep b (Bar.set_offset_array b v)
  | offset_group (b v) : SetterStep b (Bar.set_offset_group b v)
  | opacity (b v) : SetterStep b (Bar.set_opacity b v)
  | orientation (b v) : SetterStep b (Bar.set_orientation b v)
  | outside_text_font (b v) : SetterStep b (Bar.set_outside_text_font b v)
  | text_font (b v) : SetterStep b (Bar.set_text_font b v)
  | visible (b v) : SetterStep b (Bar.set_visible b v)
  | width (b v) : SetterStep b (Bar.set_width b v)
  | x_axis (b v) : SetterStep b (Bar.set_x_axis b v)
  | x_calendar (b v) : SetterStep b (Bar.set_x_calendar b v)
  | y_axis (b v) : SetterStep b (Bar.set_y_axis b v)
  | y_calendar (b v) : SetterStep b (Bar.set_y_calendar b v)

/-- Configurations reachable through the public API: `Bar::default()`,
`Bar::new(x, y)`, and any chain of setter calls from those. -/
inductive Reachable {X Y : Type} : Bar X Y → Prop where
  | default : Reachable (Bar.default X Y)
  | new (x y) : Reachable (Bar.new x y)
  | step {b b'} : Reachable b → SetterStep b b' → Reachable b'

theorem SetterStep.preserves_type {X Y : Type} {b b' : Bar X Y}
    (h : SetterStep b b') : b'.type = b.type := by
  cases h <;> rfl

theorem Reachable.type_is_bar {X Y : Type} {b : Bar X Y} (h : Reachable b) :
    b.type = PlotType.bar := by
  induction h with
  | default => rfl
  | new x y => rfl
  | step _ hs ih => rw [hs.preserves_type]; exact ih

/-- Claim C5: for every publicly reachable `Bar` configuration, the serialized
document contains the discriminant key `"type"` mapped to `"bar"`, and no
public operation changes the discriminant after construction. -/
theorem bar_discriminant_immutable (X Y : Type) (encX : X → Json)
    (encY : Y → Json) (b : Bar X Y) (h : Reachable b) :
    b.type = PlotType.bar ∧
    Json.get (b.toJsonDoc encX encY) "type" = some (.str "bar") := by
  have ht := h.type_is_bar
  refine ⟨ht, ?_⟩
  simp [Bar.toJsonDoc, get_obj, lookupKey_cons_hit, ht, PlotType.toJson]

/-- Witness for C5: `Bar::new([1], [2])` is reachable, its discriminant is
`bar` and its document maps `"type"` to `"bar"`. -/
theorem bar_discriminant_immutable_witness :
    (Bar.new [(1 : ℤ)] [(2 : ℤ)]).type = PlotType.bar ∧
    Json.get ((Bar.new [(1 : ℤ)] [(2 : ℤ)]).toJsonDoc encInt encInt) "type"
      = some (.str "bar") :=
  bar_discriminant_immutable ℤ ℤ encInt encInt _ (Reachable.new _ _)

/-- Claim C6: serializing `Bar::new(x, y)` with no optional setters applied
yields a document containing exactly the keys `"type"`, `"x"` and `"y"`, and
serializing `Bar::default()` yields exactly `{"type": "bar"}`. -/
theorem bar_mandatory_only_document (X Y : Type) (encX : X → Json)
    (encY : Y → Json) (x : List X) (y : List Y) :
    (Bar.new x y).toJsonDoc encX encY
      = .obj [("type", .str "bar"), ("x", .arr (x.map encX)),
          ("y", .arr (y.map encY))] ∧
    ((Bar.new x y).toJsonDoc encX encY).keys = ["type", "x", "y"] ∧
    (Bar.default X Y).toJsonDoc encX encY = .obj [("type", .str "bar")] := by
  refine ⟨?_, ?_, ?_⟩ <;>
    simp [Bar.toJsonDoc, Bar.new, Bar.default, optField, PlotType.toJson, Json.keys]

/-- Claim C7: every enumerated attribute value serializes to its documented
fixed string — `Orientation::Vertical` to `"v"`, `Visible::LegendOnly` to
`"legendonly"`, and the `Calendar`, `ConstrainText`, `TextAnchor` and
`TextPosition` variants to their fixed lower-case strings — both as bare
encoders and through `Bar` serialization. -/
theorem bar_enum_fixed_strings :
    Orientation.toJson .vertical = .str "v" ∧
    Visible.toJson .legendOnly = .str "legendonly" ∧
    Calendar.toJson .nanakshahi = .str "nanakshahi" ∧
    Calendar.toJson .ummalqura = .str "ummalqura" ∧
    ConstrainText.toJson .both = .str "both" ∧
    TextAnchor.toJson .finish = .str "end" ∧
    TextPosition.toJson .none = .str "none" ∧
    HoverInfo.toJson .all = .str "all" ∧
    Json.get (((Bar.default ℤ ℤ).set_orientation .vertical).toJsonDoc encInt encInt)
        "orientation" = some (.str "v") ∧
    Json.get (((Bar.default ℤ ℤ).set_visible .legendOnly).toJsonDoc encInt encInt)
        "visible" = some (.str "legendonly") := by
  refine ⟨rfl, rfl, rfl, rfl, rfl, rfl, rfl, rfl, ?_, ?_⟩ <;>
    simp only [Bar.toJsonDoc, Bar.default, Bar.set_orientation, Bar.set_visible,
      get_obj, List.cons_append, List.nil_append, List.append_assoc,
      lookupKey_cons_skip, lookupKey_optField_skip, lookupKey_optField_hit,
      Orientation.toJson, Visible.toJson, String.reduceEq, not_false_eq_true]

/-- Claim C8: serialization never fails for any well-typed `Bar`
configuration: `Trace::to_json` always returns a document (a JSON object),
so the `unwrap` on the serialization result is unreachable. -/
theorem bar_to_json_infallible (X Y : Type) (encX : X → Json)
    (encY : Y → Json) (b : Bar X Y) :
    ∃ fs, b.to_json encX encY = Json.obj fs ∧ b.toJsonDoc encX encY = Json.obj fs :=
  ⟨_, rfl, rfl⟩

/-- Claim C9: serialization is deterministic and mutation-free — repeated
serialization of a configuration yields identical documents, and equal
configurations serialize to equal documents. -/
theorem bar_serialization_deterministic (X Y : Type) (encX : X → Json)
    (encY : Y → Json) (b b' : Bar X Y) (h : b = b') :
    b.to_json encX encY = b.to_json encX encY ∧
    b.to_json encX encY = b'.to_json encX encY :=
  ⟨rfl, by rw [h]⟩

/-- Witness for C9: serializing `Bar::new([1], [2])` twice yields identical
documents. -/
theorem bar_serialization_deterministic_witness :
    (Bar.new [(1 : ℤ)] [(2 : ℤ)]).to_json encInt encInt
      = (Bar.new [(1 : ℤ)] [(2 : ℤ)]).to_json encInt encInt ∧
    (Bar.new [(1 : ℤ)] [(2 : ℤ)]).to_json encInt encInt
      = (Bar.new [(1 : ℤ)] [(2 : ℤ)]).to_json encInt encInt :=
  bar_serialization_deterministic ℤ ℤ encInt encInt _ _ rfl

/-- Claim C10: the serialized document's keys appear in the struct's field
declaration order — `"type"` is always emitted first, and the present
attributes' keys follow as a sublist of the declaration-order key list. -/
theorem bar_keys_declaration_order (X Y : Type) (encX : X → Json)
    (encY : Y → Json) (b : Bar X Y) :
    ((b.toJsonDoc encX encY).keys).head? = some "type" ∧
    List.Sublist ((b.toJsonDoc encX encY).keys) declaredKeyOrder := by
  constructor
  · simp [Bar.toJsonDoc, Json.keys]
  · show List.Sublist _ (["type"] ++ ["x"] ++ ["y"] ++ ["name"] ++
      ["visible"] ++ ["showlegend"] ++ ["legendgroup"] ++ ["opacity"] ++
      ["ids"] ++ ["width"] ++ ["offset"] ++ ["text"] ++
      ["textposition"] ++ ["texttemplate"] ++ ["hovertext"] ++
      ["hoverinfo"] ++ ["hovertemplate"] ++ ["xaxis"] ++ ["yaxis"] ++
      ["orientation"] ++ ["alignmentgroup"] ++ ["offsetgroup"] ++
      ["marker"] ++ ["textangle"] ++ ["textfont"] ++ ["error_x"] ++
      ["error_y"] ++ ["cliponaxis"] ++ ["constraintext"] ++
      ["hoverlabel"] ++ ["insidetextanchor"] ++ ["insidetextfont"] ++
      ["outsidetextfont"] ++ ["xcalendar"] ++ ["ycalendar"])
    simp only [Bar.toJsonDoc, Json.keys, List.map_append, List.map_cons,
      List.map_nil, List.append_assoc]
    refine List.Sublist.append (List.Sublist.refl _) ?_
    repeat'
      first
        | exact keys_optField_sublist _ _ _
        | refine List.Sublist.append (keys_optField_sublist _ _ _) ?_

end Plotly
